import Mathlib

/-!
Verification of the Shannon pipeline orchestration and resilience layer.

This file gives a shallow embedding, in Lean 4, of the parts of the Shannon
source relevant to the frozen claims:

* the Temporal pipeline workflow (`src/temporal/workflows.ts`):
  run state, phase execution, the parallel vuln/exploit sub-pipelines,
  summary computation, terminal handling and the `getProgress` query handler;
* the retry-with-checkpoint executor (`src/ai/retry-handler.ts`,
  `run_claude_prompt_with_retry`), with the error classifier and backoff-delay
  functions as parameters (the module `src/error-handling.ts` that implements
  them is not part of the corpus; the textual pattern tables it consumes,
  `src/constants/error-patterns.ts`, are, and a spec-modelled classifier over
  those tables is provided);
* the UI Temporal bridge reconciliation (`ui/temporal_bridge.ts`,
  `TemporalBridge.getProgress`, success path);
* the WebSocket server's polling-error deduplication and log tailing
  (`ui/ws_server.ts`, `shouldBroadcastPollingError` and `streamLogs`).

Activity outcomes, clock readings and file contents are passed as explicit
parameters; JS numbers used for timestamps are modelled as `Nat`/`Int`,
monetary costs as `Rat`, byte offsets as character offsets into `List Char`.
-/

namespace Shannon

/-! ## Data model (src/temporal/shared.ts types as used by workflows.ts) -/

/-- Run status: `running → {completed | failed}`. -/
inductive Status where
  | running
  | completed
  | failed
deriving DecidableEq, Repr

/-- Per-agent metrics record (`AgentMetrics`). -/
structure AgentMetrics where
  durationMs : Nat
  inputTokens : Option Nat := none
  outputTokens : Option Nat := none
  costUsd : Option Rat := none
  numTurns : Option Nat := none
  model : Option String := none
deriving DecidableEq, Repr

/-- Terminal summary (`PipelineSummary`). -/
structure PipelineSummary where
  totalCostUsd : Rat
  totalDurationMs : Int
  totalTurns : Nat
  agentCount : Nat
deriving DecidableEq, Repr

/-- The mutable run-state record (`PipelineState` in workflows.ts).
`agentMetrics` is the JS object modelled as an insertion-ordered
association list. -/
structure PipelineState where
  status : Status
  currentPhase : Option String
  currentAgent : Option String
  completedAgents : List String
  failedAgent : Option String
  error : Option String
  startTime : Nat
  agentMetrics : List (String × AgentMetrics)
  summary : Option PipelineSummary
deriving DecidableEq, Repr

/-- JS object key assignment `obj[k] = v`: overwrite in place if the key
exists (insertion position kept), append otherwise. -/
def setMetric (l : List (String × AgentMetrics)) (k : String) (v : AgentMetrics) :
    List (String × AgentMetrics) :=
  if l.any (fun p => p.1 == k) then
    l.map (fun p => if p.1 == k then (k, v) else p)
  else
    l ++ [(k, v)]

/-- `computeSummary` from workflows.ts: totals over `Object.values(state.agentMetrics)`,
with `Date.now()` passed explicitly as `now`. -/
def computeSummary (now : Nat) (s : PipelineState) : PipelineSummary :=
  { totalCostUsd := (s.agentMetrics.map (fun p => p.2.costUsd.getD 0)).sum
    totalDurationMs := (now : Int) - (s.startTime : Int)
    totalTurns := (s.agentMetrics.map (fun p => p.2.numTurns.getD 0)).sum
    agentCount := s.completedAgents.length }

/-- Initial run state built at the top of `pentestPipelineWorkflow`. -/
def initState (startNow : Nat) : PipelineState :=
  { status := .running
    currentPhase := none
    currentAgent := none
    completedAgents := []
    failedAgent := none
    error := none
    startTime := startNow
    agentMetrics := []
    summary := none }

/-! ## Error-pattern tables (src/constants/error-patterns.ts) -/

/-- `RETRYABLE_PATTERNS` from src/constants/error-patterns.ts. -/
def RETRYABLE_PATTERNS : List String :=
  ["network", "connection", "timeout", "econnreset", "enotfound", "econnrefused",
   "rate limit", "429", "too many requests", "server error", "5xx",
   "internal server error", "service unavailable", "bad gateway", "mcp server",
   "model unavailable", "service temporarily unavailable", "api error",
   "terminated", "max turns", "maximum turns"]

/-- `NON_RETRYABLE_PATTERNS` from src/constants/error-patterns.ts. -/
def NON_RETRYABLE_PATTERNS : List String :=
  ["authentication", "invalid prompt", "out of memory", "permission denied",
   "session limit reached", "invalid api key"]

/-- `needle` begins at the head of `l`. -/
def listStartsWith : List Char → List Char → Bool
  | _, [] => true
  | [], _ :: _ => false
  | c :: cs, d :: ds => c == d && listStartsWith cs ds

/-- `needle` occurs contiguously somewhere in `l`. -/
def listHasSub (l needle : List Char) : Bool :=
  match l with
  | [] => needle.isEmpty
  | c :: rest => listStartsWith (c :: rest) needle || listHasSub rest needle

/-- Substring test on strings: `needle` occurs contiguously in `haystack`
(JS `String.prototype.includes`). -/
def containsSub (haystack needle : String) : Bool :=
  listHasSub haystack.toList needle.toList

/-- JS `String.prototype.toLowerCase`, character-wise. -/
def strLower (s : String) : String := String.mk (s.data.map Char.toLower)

/-- JS `String.prototype.toUpperCase`, character-wise. -/
def strUpper (s : String) : String := String.mk (s.data.map Char.toUpper)

/-! ## Retry-checkpoint executor (src/ai/retry-handler.ts) -/

/-- An error value flowing through the executor. `pentestRetryable` is
`some r` when the error is a `PentestError` carrying an explicit
retryable flag `r`, and `none` for a plain `Error`. -/
structure ExecError where
  message : String
  pentestRetryable : Option Bool := none
deriving DecidableEq, Repr

/-- Modelled from the spec: `isRetryableError` lives in
`src/error-handling.ts`, which is not part of the corpus. Per the spec's
error-classifier interface, classification is driven by the static tables
of textual signatures in `src/constants/error-patterns.ts`
(non-retryable patterns checked before the default, per that file's
comments), and a `PentestError`'s explicit retryable flag is authoritative.
The default branch for messages matching no pattern is never exercised by
the theorems below. -/
def spec_is_retryable (e : ExecError) : Bool :=
  match e.pentestRetryable with
  | some r => r
  | none =>
    let m := strLower e.message
    if NON_RETRYABLE_PATTERNS.any (fun p => containsSub m p) then false
    else RETRYABLE_PATTERNS.any (fun p => containsSub m p)

/-- Outcome of one call to `run_single_attempt` plus the validator verdict:
either the runner resolves with `success: true` (then `validationPasses`
is the verdict of `validate_output` and `apiErrorDetected` the flag on the
result), resolves with `success: false` (returned, not thrown), or rejects
with an error. -/
inductive AttemptOutcome where
  | success (validationPasses : Bool) (apiErrorDetected : Bool)
  | returnedFailure
  | raises (e : ExecError)
deriving DecidableEq, Repr

/-- Observable side effects of the executor on the workspace, in order. -/
inductive ExecEvent where
  | checkpoint (attempt : Nat)
  | commit
  | rollback (reason : String)
  | sleep (ms : Nat)
deriving DecidableEq, Repr

/-- `last_error` set when a successful result fails validation
(`result.apiErrorDetected` distinguishes the message). -/
def validationFailureError (apiErrorDetected : Bool) : ExecError :=
  if apiErrorDetected then
    { message := "API Error: terminated with validation failure" }
  else
    { message := "Output validation failed" }

/-- The terminal `PentestError` raised when output validation fails on the
final attempt (`retryable := false` in the constructor call). -/
def validationExhaustedError (description : String) (max_retries : Nat) : ExecError :=
  { message := "Agent " ++ description ++ " failed output validation after "
      ++ toString max_retries ++ " attempts. Required deliverable files were not created."
    pentestRetryable := some false }

/-- One iteration of the `for attempt in 1..max_retries` loop of
`run_claude_prompt_with_retry`, plus the `throw last_error` after the loop
(`fuel = 0`). `classify` stands for the imported `isRetryableError` and
`delay` for `getRetryDelay`; `outcome n` is what attempt `n`'s
`run_single_attempt` / `validate_output` pair does. Returns the workspace
event trace and either success or the thrown error (`.error none` models
`throw undefined` when no attempt ever set `last_error`). -/
def retry_go (classify : ExecError → Bool) (delay : ExecError → Nat → Nat)
    (outcome : Nat → AttemptOutcome) (description : String) (max_retries : Nat) :
    Nat → Nat → Option ExecError → List ExecEvent × Except (Option ExecError) Unit
  | 0, _, last => ([], .error last)
  | fuel + 1, attempt, last =>
    let ck := ExecEvent.checkpoint attempt
    match outcome attempt with
    | .success true _ => ([ck, .commit], .ok ())
    | .success false api =>
      let lerr := validationFailureError api
      if attempt < max_retries then
        let rest := retry_go classify delay outcome description max_retries fuel (attempt + 1) (some lerr)
        (ck :: .rollback "validation failure" :: rest.1, rest.2)
      else
        let perr := validationExhaustedError description max_retries
        if ¬ classify perr then
          ([ck, .rollback "non-retryable error cleanup"], .error (some perr))
        else if attempt < max_retries then
          let rest := retry_go classify delay outcome description max_retries fuel (attempt + 1) (some perr)
          (ck :: .rollback "retryable error cleanup" :: .sleep (delay perr attempt) :: rest.1, rest.2)
        else
          let rest := retry_go classify delay outcome description max_retries fuel (attempt + 1) (some perr)
          (ck :: .rollback "final failure cleanup" :: rest.1, rest.2)
    | .returnedFailure =>
      let rest := retry_go classify delay outcome description max_retries fuel (attempt + 1) last
      (ck :: rest.1, rest.2)
    | .raises e =>
      if ¬ classify e then
        ([ck, .rollback "non-retryable error cleanup"], .error (some e))
      else if attempt < max_retries then
        let rest := retry_go classify delay outcome description max_retries fuel (attempt + 1) (some e)
        (ck :: .rollback "retryable error cleanup" :: .sleep (delay e attempt) :: rest.1, rest.2)
      else
        let rest := retry_go classify delay outcome description max_retries fuel (attempt + 1) (some e)
        (ck :: .rollback "final failure cleanup" :: rest.1, rest.2)

/-- `run_claude_prompt_with_retry` (src/ai/retry-handler.ts): run the loop
from attempt 1 with `last_error` unset. -/
def run_claude_prompt_with_retry (classify : ExecError → Bool)
    (delay : ExecError → Nat → Nat) (outcome : Nat → AttemptOutcome)
    (description : String) (max_retries : Nat) :
    List ExecEvent × Except (Option ExecError) Unit :=
  retry_go classify delay outcome description max_retries max_retries 1 none

/-- Number of `createGitCheckpoint` calls in a trace. -/
def countCheckpoints : List ExecEvent → Nat
  | [] => 0
  | .checkpoint _ :: rest => countCheckpoints rest + 1
  | _ :: rest => countCheckpoints rest

/-- Number of `rollbackGitWorkspace` calls in a trace. -/
def countRollbacks : List ExecEvent → Nat
  | [] => 0
  | .rollback _ :: rest => countRollbacks rest + 1
  | _ :: rest => countRollbacks rest

/-- Number of `rollbackGitWorkspace` calls with a given reason string. -/
def countRollbacksWith (reason : String) : List ExecEvent → Nat
  | [] => 0
  | .rollback r :: rest =>
    if r = reason then countRollbacksWith reason rest + 1 else countRollbacksWith reason rest
  | _ :: rest => countRollbacksWith reason rest

/-- Number of `commitGitSuccess` calls in a trace. -/
def countCommits : List ExecEvent → Nat
  | [] => 0
  | .commit :: rest => countCommits rest + 1
  | _ :: rest => countCommits rest

/-- Number of backoff sleeps (`await new Promise(setTimeout)`) in a trace. -/
def countSleeps : List ExecEvent → Nat
  | [] => 0
  | .sleep _ :: rest => countSleeps rest + 1
  | _ :: rest => countSleeps rest

/-! ## Pipeline workflow (src/temporal/workflows.ts) -/

deriving instance DecidableEq for Except

/-- Result of `checkExploitationQueue`. -/
structure ExploitDecision where
  shouldExploit : Bool
  vulnerabilityCount : Nat
deriving DecidableEq, Repr

/-- `VulnExploitPipelineResult` returned by one sub-pipeline. -/
structure VulnExploitPipelineResult where
  vulnType : String
  vulnMetrics : AgentMetrics
  exploitMetrics : Option AgentMetrics
  exploitDecision : ExploitDecision
  error : Option String
deriving DecidableEq, Repr

/-- Outcomes of the three awaited activities inside one vuln/exploit
sub-pipeline: `.error` means the activity rejected after the Temporal
retry policy was exhausted (an unrecoverable failure of that activity). -/
structure SubPipelineEnv where
  vulnResult : Except String AgentMetrics
  queueResult : Except String ExploitDecision
  exploitResult : Except String AgentMetrics
deriving DecidableEq, Repr

/-- Outcomes of every awaited agent activity of one run (log activities are
modelled as always succeeding). -/
structure WorkflowEnv where
  preRecon : Except String AgentMetrics
  recon : Except String AgentMetrics
  injection : SubPipelineEnv
  xss : SubPipelineEnv
  auth : SubPipelineEnv
  ssrf : SubPipelineEnv
  authz : SubPipelineEnv
  assembleReport : Except String Unit
  reportAgent : Except String AgentMetrics
  injectReportMetadata : Except String Unit
deriving DecidableEq, Repr

/-- The five sub-pipeline environments in the order the source launches
them (injection, xss, auth, ssrf, authz). -/
def subEnvs (env : WorkflowEnv) : List SubPipelineEnv :=
  [env.injection, env.xss, env.auth, env.ssrf, env.authz]

/-- The five vuln types of the parallel phase, in launch order. -/
def vulnTypes : List String := ["injection", "xss", "auth", "ssrf", "authz"]

/-- `execute_pre_recon_phase`: mark phase/agent, run the agent, record
metrics and completion. On activity rejection the state mutated so far is
returned together with the error (the JS state object is shared, so
mutations made before the throw persist). -/
def execute_pre_recon_phase (r : Except String AgentMetrics) (s : PipelineState) :
    PipelineState × Option String :=
  let s1 := { s with currentPhase := some "pre-recon", currentAgent := some "pre-recon" }
  match r with
  | .error e => (s1, some e)
  | .ok m =>
    ({ s1 with agentMetrics := setMetric s1.agentMetrics "pre-recon" m
               completedAgents := s1.completedAgents ++ ["pre-recon"] }, none)

/-- `execute_recon_phase`. -/
def execute_recon_phase (r : Except String AgentMetrics) (s : PipelineState) :
    PipelineState × Option String :=
  let s1 := { s with currentPhase := some "recon", currentAgent := some "recon" }
  match r with
  | .error e => (s1, some e)
  | .ok m =>
    ({ s1 with agentMetrics := setMetric s1.agentMetrics "recon" m
               completedAgents := s1.completedAgents ++ ["recon"] }, none)

/-- The state updates and outcome of one `run_vuln_exploit_pipeline` call:
which metrics it recorded, which completions it pushed, and the settled
result (`.error` = rejected promise). -/
structure SubPipelineRun where
  newMetrics : List (String × AgentMetrics)
  completed : List String
  outcome : Except String VulnExploitPipelineResult
deriving DecidableEq, Repr

/-- `run_vuln_exploit_pipeline` (workflows.ts): vuln agent, then the
gating `checkExploitationQueue` decision, then the conditional exploit
agent. State writes performed before a rejection are kept. -/
def run_vuln_exploit_pipeline (vulnType : String) (e : SubPipelineEnv) : SubPipelineRun :=
  match e.vulnResult with
  | .error msg => { newMetrics := [], completed := [], outcome := .error msg }
  | .ok vm =>
    let mets := [(vulnType ++ "-vuln", vm)]
    let comp := [vulnType ++ "-vuln"]
    match e.queueResult with
    | .error msg => { newMetrics := mets, completed := comp, outcome := .error msg }
    | .ok d =>
      if d.shouldExploit then
        match e.exploitResult with
        | .error msg => { newMetrics := mets, completed := comp, outcome := .error msg }
        | .ok em =>
          let res : VulnExploitPipelineResult :=
            ⟨vulnType, vm, some em, ⟨d.shouldExploit, d.vulnerabilityCount⟩, none⟩
          { newMetrics := mets ++ [(vulnType ++ "-exploit", em)],
            completed := comp ++ [vulnType ++ "-exploit"],
            outcome := .ok res }
      else
        let res : VulnExploitPipelineResult :=
          ⟨vulnType, vm, none, ⟨d.shouldExploit, d.vulnerabilityCount⟩, none⟩
        { newMetrics := mets, completed := comp, outcome := .ok res }

/-- Fold one sub-pipeline's state updates into the run state. -/
def applySubRun (st : PipelineState) (r : SubPipelineRun) : PipelineState :=
  { st with agentMetrics := r.newMetrics.foldl (fun ms p => setMetric ms p.1 p.2) st.agentMetrics
            completedAgents := st.completedAgents ++ r.completed }

/-- `execute_vulnerability_exploitation_phase`: launch the five
sub-pipelines, collect all outcomes with `Promise.allSettled` (settle all,
never reject), gather the rejection messages into `failedPipelines`
(logged, otherwise ignored), then advance the phase markers. Sub-pipeline
state writes are applied in launch order — a serialization of the
interleaving, which the collected outcomes do not depend on. This phase
never throws. -/
def execute_vulnerability_exploitation_phase (env : WorkflowEnv) (s : PipelineState) :
    PipelineState × List (Except String VulnExploitPipelineResult) × List String :=
  let s1 := { s with currentPhase := some "vulnerability-exploitation"
                     currentAgent := some "pipelines" }
  let runs := List.zipWith run_vuln_exploit_pipeline vulnTypes (subEnvs env)
  let s2 := runs.foldl applySubRun s1
  let results := runs.map (fun r => r.outcome)
  let failedPipelines := results.filterMap
    (fun r => match r with | .error m => some m | .ok _ => none)
  let s3 := { s2 with currentPhase := some "exploitation", currentAgent := none }
  (s3, results, failedPipelines)

/-- `execute_reporting_phase`: assemble, run the report agent, inject
metadata. -/
def execute_reporting_phase (env : WorkflowEnv) (s : PipelineState) :
    PipelineState × Option String :=
  let s1 := { s with currentPhase := some "reporting", currentAgent := some "report" }
  match env.assembleReport with
  | .error e => (s1, some e)
  | .ok _ =>
    match env.reportAgent with
    | .error e => (s1, some e)
    | .ok m =>
      let s2 := { s1 with agentMetrics := setMetric s1.agentMetrics "report" m
                          completedAgents := s1.completedAgents ++ ["report"] }
      match env.injectReportMetadata with
      | .error e => (s2, some e)
      | .ok _ => (s2, none)

/-- The payload of `logWorkflowComplete` (`build_workflow_summary`). -/
structure WorkflowSummaryMsg where
  status : Status
  totalDurationMs : Int
  totalCostUsd : Rat
  completedAgents : List String
  agentMetrics : List (String × Nat × Option Rat)
  error : Option String
deriving DecidableEq, Repr

/-- `build_workflow_summary` (workflows.ts). At both call sites
`state.summary` has just been assigned, so the non-null assertion
`state.summary!` is modelled with a default that is never reached. -/
def build_workflow_summary (s : PipelineState) (status : Status) (error : Option String) :
    WorkflowSummaryMsg :=
  let sum := s.summary.getD { totalCostUsd := 0, totalDurationMs := 0, totalTurns := 0, agentCount := 0 }
  { status := status
    totalDurationMs := sum.totalDurationMs
    totalCostUsd := sum.totalCostUsd
    completedAgents := s.completedAgents
    agentMetrics := s.agentMetrics.map (fun p => (p.1, p.2.durationMs, p.2.costUsd))
    error := error }

/-- One complete run of `pentestPipelineWorkflow`, with the observable
points the claims talk about. `observables` is the state at
initialization, after each completed phase, and at the terminal
transition; `preTerminal` is the state the moment control reaches the
terminal handling (the `try` block's end or the `catch` entry);
`completionLog` is the `logWorkflowComplete` payload; `outcome` is what
the caller sees (`.error` = the workflow re-threw). -/
structure WorkflowRun where
  observables : List PipelineState
  preTerminal : PipelineState
  finalState : PipelineState
  pipelineResults : List (Except String VulnExploitPipelineResult)
  failedPipelines : List String
  completionLog : Option WorkflowSummaryMsg
  outcome : Except String PipelineState
deriving Repr

/-- The `catch` block of `pentestPipelineWorkflow`: mark failed, record the
agent in progress and the error, compute the summary, emit the terminal
notification, re-throw. -/
def finishFailed (s : PipelineState) (e : String) (endNow : Nat)
    (obs : List PipelineState) (results : List (Except String VulnExploitPipelineResult))
    (failedP : List String) : WorkflowRun :=
  let sA := { s with status := Status.failed, failedAgent := s.currentAgent, error := some e }
  let sB := { sA with summary := some (computeSummary endNow sA) }
  { observables := obs ++ [sB]
    preTerminal := s
    finalState := sB
    pipelineResults := results
    failedPipelines := failedP
    completionLog := some (build_workflow_summary sB Status.failed (some e))
    outcome := .error e }

/-- The success tail of the `try` block: mark completed, clear the phase
markers, compute the summary, emit the terminal notification, return. -/
def finishCompleted (s : PipelineState) (endNow : Nat) (obs : List PipelineState)
    (results : List (Except String VulnExploitPipelineResult)) (failedP : List String) :
    WorkflowRun :=
  let sA := { s with status := Status.completed, currentPhase := none, currentAgent := none }
  let sB := { sA with summary := some (computeSummary endNow sA) }
  { observables := obs ++ [sB]
    preTerminal := s
    finalState := sB
    pipelineResults := results
    failedPipelines := failedP
    completionLog := some (build_workflow_summary sB Status.completed none)
    outcome := .ok sB }

/-- `pentestPipelineWorkflow` (workflows.ts): initialize the run state,
execute the ordered phases and the parallel phase in sequence, and perform
the terminal handling of the `try`/`catch`. `startNow` and `endNow` are
the `Date.now()` readings at initialization and at terminal handling. -/
def pentestPipelineWorkflow (env : WorkflowEnv) (startNow endNow : Nat) : WorkflowRun :=
  let s0 := initState startNow
  match execute_pre_recon_phase env.preRecon s0 with
  | (sF, some e) => finishFailed sF e endNow [s0] [] []
  | (s1, none) =>
    match execute_recon_phase env.recon s1 with
    | (sF, some e) => finishFailed sF e endNow [s0, s1] [] []
    | (s2, none) =>
      match execute_vulnerability_exploitation_phase env s2 with
      | (s3, results, failedP) =>
        match execute_reporting_phase env s3 with
        | (sF, some e) => finishFailed sF e endNow [s0, s1, s2, s3] results failedP
        | (s4, none) => finishCompleted s4 endNow [s0, s1, s2, s3, s4] results failedP

/-- The `getProgress` query handler payload: the spread of the run state
plus `workflowId` and `elapsedMs` computed from the clock reading `now`. -/
structure PipelineProgress where
  state : PipelineState
  workflowId : String
  elapsedMs : Int
deriving DecidableEq, Repr

/-- The `setHandler(getProgress, ...)` body of `pentestPipelineWorkflow`:
`{ ...state, workflowId, elapsedMs: Date.now() - state.startTime }`. -/
def getProgressHandler (s : PipelineState) (workflowId : String) (now : Nat) :
    PipelineProgress :=
  { state := s, workflowId := workflowId, elapsedMs := (now : Int) - (s.startTime : Int) }

/-! ## Progress bridge (ui/temporal_bridge.ts, `TemporalBridge.getProgress`) -/

/-- The `PipelineProgress` snapshot as typed on the UI side
(ui/temporal_bridge.ts). -/
structure BridgeProgress where
  status : Status
  currentPhase : Option String
  currentAgent : Option String
  completedAgents : List String
  failedAgent : Option String
  error : Option String
  startTime : Nat
  agentMetrics : List (String × AgentMetrics)
  workflowId : String
  elapsedMs : Int
deriving DecidableEq, Repr

/-- What `handle.describe()` yields: `description.status?.name` and
`description.startTime` (as epoch milliseconds), each possibly absent. -/
structure DescribeResult where
  statusName : Option String
  startTime : Option Nat
deriving DecidableEq, Repr

/-- `to_progress_status` (temporal_bridge.ts): normalize
`description.status?.name` to the three progress statuses; anything that is
neither RUNNING nor COMPLETED maps to failed. -/
def to_progress_status (statusName : Option String) : Status :=
  let normalized := strUpper (statusName.getD "")
  if normalized = "RUNNING" then .running
  else if normalized = "COMPLETED" then .completed
  else .failed

/-- The reconciliation note `Workflow is ${name?.toLowerCase() || 'not running'}`. -/
def reconciliationNote (d : DescribeResult) : String :=
  let n := strLower (d.statusName.getD "")
  "Workflow is " ++ (if n = "" then "not running" else n)

/-- The reconciliation step of `TemporalBridge.getProgress` on the success
path of the query: given the snapshot `progress` the query returned, the
result of `handle.describe()` (`none` = describe itself threw, which is
caught and logged), and the `Date.now()` reading, produce the snapshot the
bridge returns. -/
def reconcile_progress (progress : BridgeProgress) (descr : Option DescribeResult)
    (now : Nat) : BridgeProgress :=
  match descr with
  | none => progress
  | some d =>
    let runtime_status := to_progress_status d.statusName
    if runtime_status ≠ Status.running then
      let start_time_ms := d.startTime.getD progress.startTime
      { progress with
          status := runtime_status,
          startTime := start_time_ms,
          elapsedMs := max progress.elapsedMs (max 0 ((now : Int) - (start_time_ms : Int))),
          error := match progress.error with
            | some e => some e
            | none => some (reconciliationNote d) }
    else progress

/-! ## WebSocket server (ui/ws_server.ts) -/

/-- The per-workflow `lastPollErrors` entry. -/
structure LastPollError where
  message : String
  timestampMs : Nat
deriving DecidableEq, Repr

/-- `shouldBroadcastPollingError` (ws_server.ts): broadcast the first error,
an error with different text, or a repeat after more than 30000 ms; suppress
repeats of the same text inside the cooldown window. Returns the verdict and
the updated `lastPollErrors` entry. -/
def shouldBroadcastPollingError (prev : Option LastPollError) (errorMessage : String)
    (now : Nat) : Bool × Option LastPollError :=
  match prev with
  | none => (true, some ⟨errorMessage, now⟩)
  | some p =>
    let messageChanged := p.message ≠ errorMessage
    let cooldownElapsed := (now : Int) - (p.timestampMs : Int) > 30000
    if messageChanged ∨ cooldownElapsed then (true, some ⟨errorMessage, now⟩)
    else (false, some p)

/-- The polling-error path of `poll` (ws_server.ts): each query failure is a
`(message, timestamp)` pair; the error text broadcast is
`Failed to query workflow: ${message}`. Returns the list of `error` events
actually broadcast to subscribers, folding the dedup state through the
failures in order. -/
def pollErrorBroadcasts (prev : Option LastPollError) : List (String × Nat) → List String
  | [] => []
  | (m, t) :: rest =>
    let errorMessage := "Failed to query workflow: " ++ m
    let v := shouldBroadcastPollingError prev errorMessage t
    if v.1 then errorMessage :: pollErrorBroadcasts v.2 rest
    else pollErrorBroadcasts v.2 rest

/-! ## Log tailing (ui/ws_server.ts, `streamLogs`) -/

/-- Split a character stream the way the `streamLogs` data handler does:
`buffer.split('\n')` followed by `buffer = lines.pop()`. Returns the
complete (newline-terminated) lines and the trailing partial line. -/
def splitComplete : List Char → List (List Char) × List Char
  | [] => ([], [])
  | c :: rest =>
    let r := splitComplete rest
    if c = '\n' then ([] :: r.1, r.2)
    else
      match r.1 with
      | [] => ([], c :: r.2)
      | l :: ls => ((c :: l) :: ls, r.2)

/-- `line.trim()` is truthy: the line contains a non-whitespace character. -/
def lineNonBlank (l : List Char) : Bool :=
  l.any (fun c => !c.isWhitespace)

/-- One `streamLogs` poll for one subscription: if the read offset is below
the observed file size, read from the offset to the end of the file, emit
every complete non-blank line as a `log` event, drop the trailing partial
line (the popped buffer is discarded when the stream ends), and advance the
offset to the observed file size. File bytes are modelled as characters. -/
def streamLogsStep (content : List Char) (pos : Nat) : List (List Char) × Nat :=
  if pos < content.length then
    let chunk := content.drop pos
    let split := splitComplete chunk
    (split.1.filter lineNonBlank, content.length)
  else ([], pos)

/-! ## Auxiliary predicates and concrete fixtures used by the theorems -/

/-- Whether an `Except` settled successfully. -/
def isOkE {α : Type} (x : Except String α) : Bool :=
  match x with
  | .ok _ => true
  | .error _ => false

/-- A sub-pipeline environment under which `run_vuln_exploit_pipeline`
settles successfully: the vuln agent and the gating decision succeed, and
the exploit agent succeeds whenever the gate says to exploit. -/
def subSucceeds (e : SubPipelineEnv) : Bool :=
  match e.vulnResult, e.queueResult with
  | .ok _, .ok d => if d.shouldExploit then isOkE e.exploitResult else true
  | _, _ => false

/-- The sub-pipeline environment at position `i` in launch order. -/
def subEnvAt (env : WorkflowEnv) : Fin 5 → SubPipelineEnv
  | 0 => env.injection
  | 1 => env.xss
  | 2 => env.auth
  | 3 => env.ssrf
  | 4 => env.authz

/-- Sample metrics for concrete instantiations. -/
def sampleMetrics : AgentMetrics :=
  { durationMs := 1200, costUsd := some 1, numTurns := some 3 }

/-- A sub-pipeline environment that succeeds without exploiting. -/
def subEnvOk : SubPipelineEnv :=
  { vulnResult := .ok sampleMetrics
    queueResult := .ok { shouldExploit := false, vulnerabilityCount := 0 }
    exploitResult := .ok sampleMetrics }

/-- A sub-pipeline environment whose vuln agent fails unrecoverably. -/
def subEnvVulnFails : SubPipelineEnv :=
  { vulnResult := .error "activity exhausted retries"
    queueResult := .ok { shouldExploit := false, vulnerabilityCount := 0 }
    exploitResult := .ok sampleMetrics }

/-- A workflow environment in which every activity succeeds. -/
def envAllOk : WorkflowEnv :=
  { preRecon := .ok sampleMetrics
    recon := .ok sampleMetrics
    injection := subEnvOk
    xss := subEnvOk
    auth := subEnvOk
    ssrf := subEnvOk
    authz := subEnvOk
    assembleReport := .ok ()
    reportAgent := .ok sampleMetrics
    injectReportMetadata := .ok () }

/-- A workflow environment in which the recon agent fails. -/
def envReconFails : WorkflowEnv :=
  { envAllOk with recon := .error "network timeout" }

/-- A workflow environment in which exactly the ssrf sub-pipeline fails. -/
def envSsrfFails : WorkflowEnv :=
  { envAllOk with ssrf := subEnvVulnFails }

/-- A bridge snapshot whose query reports a still-running workflow. -/
def sampleBridgeProgress : BridgeProgress :=
  { status := .running
    currentPhase := some "recon"
    currentAgent := some "recon"
    completedAgents := ["pre-recon"]
    failedAgent := none
    error := none
    startTime := 1000
    agentMetrics := []
    workflowId := "shannon-1"
    elapsedMs := 500 }

/-- An authoritative describe() answer reporting a terminated workflow with
an earlier start time than the query snapshot. -/
def sampleDescribe : DescribeResult :=
  { statusName := some "COMPLETED", startTime := some 0 }

/-- A concrete backoff-delay function (stands for `getRetryDelay`). -/
def c6_delay : ExecError → Nat → Nat := fun _ n => 7000 * n

/-- Attempt outcomes: attempt 1 succeeds but fails output validation,
attempt 2 succeeds and validates. -/
def c6_outcome_validation : Nat → AttemptOutcome := fun n =>
  if n = 1 then .success false false else .success true false

/-- Attempt outcomes: attempt 1 rejects with a retryable network error,
attempt 2 succeeds and validates. -/
def c6_outcome_exception : Nat → AttemptOutcome := fun n =>
  if n = 1 then .raises { message := "network timeout" } else .success true false

end Shannon

namespace Shannon

/-! ## Helper lemmas -/

theorem splitComplete_no_newline (t : List Char) (h : '\n' ∉ t) :
    splitComplete t = ([], t) := by
  induction t with
  | nil => rfl
  | cons c rest ih =>
    have hc : c ≠ '\n' := fun hc => h (hc ▸ List.mem_cons_self c rest)
    have hrest : '\n' ∉ rest := fun hm => h (List.mem_cons_of_mem c hm)
    simp [splitComplete, ih hrest, hc]

theorem splitComplete_append_no_newline (pre t : List Char) (h : '\n' ∉ t) :
    splitComplete (pre ++ t) = ((splitComplete pre).1, (splitComplete pre).2 ++ t) := by
  induction pre with
  | nil => simp [splitComplete, splitComplete_no_newline t h]
  | cons c pre' ih =>
    by_cases hc : c = '\n'
    · subst hc
      simp [splitComplete, ih]
    · simp only [List.cons_append, splitComplete, ih, hc, if_false, ite_false]
      cases hsp : (splitComplete pre').1 with
      | nil => simp [ih, hsp]
      | cons l ls => simp [ih, hsp]

/-! ## Claim C10 — partial log lines are skipped permanently -/

/-- Claim C10: if, when a poll tails a run's log file, the file ends with
bytes after the last newline, those bytes are skipped permanently: the
partial tail `t` contributes no `log` event at this poll (the emitted lines
are exactly those of the file without the tail), the subscription's read
offset is advanced to the file size observed at read time, and once the
terminating newline is appended later, the next poll reads only the
newline, emits nothing, and advances past it — so the partial line is
never emitted as a `log` event on any subsequent poll. -/
theorem spec_C10_skipped_line (pre t : List Char) (hne : t ≠ []) (hnl : '\n' ∉ t) :
    (streamLogsStep (pre ++ t) 0).1 = (streamLogsStep pre 0).1 ∧
    (streamLogsStep (pre ++ t) 0).2 = (pre ++ t).length ∧
    (streamLogsStep ((pre ++ t) ++ ['\n']) (pre ++ t).length).1 = [] ∧
    (streamLogsStep ((pre ++ t) ++ ['\n']) (pre ++ t).length).2 = (pre ++ t).length + 1 := by
  have hlen : 0 < (pre ++ t).length := by
    cases t with
    | nil => exact absurd rfl hne
    | cons c cs => simp [List.length_append]
  have hsplit := splitComplete_append_no_newline pre t hnl
  refine ⟨?_, ?_, ?_, ?_⟩
  · cases pre with
    | nil =>
      simp only [List.nil_append]
      rw [streamLogsStep, if_pos (by simpa using hlen)]
      rw [List.nil_append] at hsplit
      simp [streamLogsStep, hsplit, splitComplete]
    | cons c cs =>
      rw [streamLogsStep, if_pos hlen, streamLogsStep, if_pos (by simp)]
      simp only [List.drop_zero]
      rw [show c :: cs ++ t = (c :: cs) ++ t from rfl, hsplit]
  · rw [streamLogsStep, if_pos hlen]
  · rw [streamLogsStep, if_pos (by simp [List.length_append])]
    rw [List.drop_left]
    simp [splitComplete, lineNonBlank]
  · rw [streamLogsStep, if_pos (by simp [List.length_append])]
    simp [List.length_append]
    omega

/-- Witness for C10 at a concrete file: content `"abc\nde"`, whose tail
`"de"` follows the last newline. -/
theorem spec_C10_witness :
    (['a', 'b', 'c', '\n'] ++ ['d', 'e'] ≠ ([] : List Char)) ∧
    (streamLogsStep (['a', 'b', 'c', '\n'] ++ ['d', 'e']) 0).1 =
      (streamLogsStep ['a', 'b', 'c', '\n'] 0).1 :=
  ⟨by decide,
   (spec_C10_skipped_line ['a', 'b', 'c', '\n'] ['d', 'e'] (by decide) (by decide)).1⟩

/-! ## Claim C8 — repeated identical polling errors are deduplicated -/

/-- Claim C8: for a subscribed run with fresh error-dedup state, two
successive progress-query failures carrying identical error text, the
second within 30000 ms of the first, produce exactly one `error` event to
subscribers, not two. -/
theorem spec_C8_dedup (m : String) (t₁ t₂ : Nat)
    (h : (t₂ : Int) - (t₁ : Int) ≤ 30000) :
    pollErrorBroadcasts none [(m, t₁), (m, t₂)] =
      ["Failed to query workflow: " ++ m] := by
  have hnot : ¬(("Failed to query workflow: " ++ m) ≠ ("Failed to query workflow: " ++ m) ∨
      ((t₂ : Int) - (t₁ : Int) > 30000)) := by
    push_neg
    exact ⟨rfl, by omega⟩
  simp only [pollErrorBroadcasts, shouldBroadcastPollingError]
  rw [if_neg hnot]
  simp [pollErrorBroadcasts]

/-- Witness for C8: identical failures at 0 ms and 30000 ms yield one
`error` event. -/
theorem spec_C8_witness :
    pollErrorBroadcasts none [("worker unavailable", 0), ("worker unavailable", 30000)] =
      ["Failed to query workflow: worker unavailable"] :=
  spec_C8_dedup "worker unavailable" 0 30000 (by norm_num)

/-! ## Claim C9 — query idempotence (corrected: elapsedMs tracks the clock) -/

/-- Counterexample to C9 as stated: two `getProgress` query calls with no
intervening mutation of the run state, made at clock readings 0 and 1000,
return different snapshots — `elapsedMs` is recomputed from `Date.now()`
on every call. -/
theorem spec_C9_counterexample :
    getProgressHandler (initState 0) "shannon-1" 0 ≠
      getProgressHandler (initState 0) "shannon-1" 1000 := by
  decide

/-- Claim C9 (amended): calling `query()` twice with no intervening
mutation of the run state returns snapshots that agree on the entire
spread run state and on `workflowId`; they are fully equal whenever the
two calls read the same clock value — only `elapsedMs`, recomputed from
`Date.now()` at each call, can differ. -/
theorem spec_C9_amended (s : PipelineState) (wid : String) (n₁ n₂ : Nat) :
    (getProgressHandler s wid n₁).state = (getProgressHandler s wid n₂).state ∧
    (getProgressHandler s wid n₁).workflowId = (getProgressHandler s wid n₂).workflowId ∧
    (n₁ = n₂ → getProgressHandler s wid n₁ = getProgressHandler s wid n₂) :=
  ⟨rfl, rfl, fun h => by rw [h]⟩

/-- Witness for C9 (amended) at a concrete state and equal clock readings. -/
theorem spec_C9_witness :
    getProgressHandler (initState 0) "shannon-1" 5 =
      getProgressHandler (initState 0) "shannon-1" 5 :=
  (spec_C9_amended (initState 0) "shannon-1" 5 5).2.2 rfl

/-! ## Claim C7 — bridge reconciliation (corrected: startTime/elapsedMs
are taken from the authoritative source, not preserved) -/

/-- Counterexample to C7 as stated: with the query reporting `running` and
describe() reporting a terminal state, the reconciled snapshot does not
preserve all fields known from the query — `startTime` is replaced by the
authoritative start time. -/
theorem spec_C7_counterexample :
    sampleBridgeProgress.status = Status.running ∧
    to_progress_status sampleDescribe.statusName ≠ Status.running ∧
    (reconcile_progress sampleBridgeProgress (some sampleDescribe) 2000).startTime ≠
      sampleBridgeProgress.startTime := by
  decide

/-- Claim C7 (amended): whenever the progress query succeeds and reports
`running` but the authoritative describe() source reports a terminal state,
`getProgress` returns a snapshot that takes the terminal status from the
authoritative source, preserves the query's `currentPhase`, `currentAgent`,
`completedAgents`, `failedAgent`, `agentMetrics` and `workflowId`, replaces
`startTime` with the authoritative start time when present, raises
`elapsedMs` to at least the elapsed time recomputed from that start, and
fills the `error` field with a reconciliation note exactly when the query's
error field was null. -/
theorem spec_C7_amended (p : BridgeProgress) (d : DescribeResult) (now : Nat)
    (_hq : p.status = Status.running)
    (hd : to_progress_status d.statusName ≠ Status.running) :
    (reconcile_progress p (some d) now).status = to_progress_status d.statusName ∧
    (reconcile_progress p (some d) now).currentPhase = p.currentPhase ∧
    (reconcile_progress p (some d) now).currentAgent = p.currentAgent ∧
    (reconcile_progress p (some d) now).completedAgents = p.completedAgents ∧
    (reconcile_progress p (some d) now).failedAgent = p.failedAgent ∧
    (reconcile_progress p (some d) now).agentMetrics = p.agentMetrics ∧
    (reconcile_progress p (some d) now).workflowId = p.workflowId ∧
    (reconcile_progress p (some d) now).startTime = d.startTime.getD p.startTime ∧
    (reconcile_progress p (some d) now).elapsedMs =
      max p.elapsedMs (max 0 ((now : Int) - ((d.startTime.getD p.startTime : Nat) : Int))) ∧
    (p.error = none → (reconcile_progress p (some d) now).error = some (reconciliationNote d)) ∧
    (∀ e, p.error = some e → (reconcile_progress p (some d) now).error = some e) := by
  have hr : reconcile_progress p (some d) now =
      { p with
          status := to_progress_status d.statusName,
          startTime := d.startTime.getD p.startTime,
          elapsedMs := max p.elapsedMs
            (max 0 ((now : Int) - ((d.startTime.getD p.startTime : Nat) : Int))),
          error := match p.error with
            | some e => some e
            | none => some (reconciliationNote d) } := by
    rw [reconcile_progress]
    rw [if_pos hd]
  rw [hr]
  refine ⟨rfl, rfl, rfl, rfl, rfl, rfl, rfl, rfl, rfl, ?_, ?_⟩
  · intro he
    simp [he]
  · intro e he
    simp [he]

/-- Witness for C7 (amended) at the concrete fixture snapshot. -/
theorem spec_C7_witness :
    (reconcile_progress sampleBridgeProgress (some sampleDescribe) 2000).status =
      to_progress_status sampleDescribe.statusName ∧
    (reconcile_progress sampleBridgeProgress (some sampleDescribe) 2000).completedAgents =
      sampleBridgeProgress.completedAgents :=
  ⟨(spec_C7_amended sampleBridgeProgress sampleDescribe 2000 (by decide) (by decide)).1,
   (spec_C7_amended sampleBridgeProgress sampleDescribe 2000 (by decide) (by decide)).2.2.2.1⟩

/-! ## Claim C2 — exhausting the attempt budget on retryable failures -/

theorem retry_raise_aux (classify : ExecError → Bool) (delay : ExecError → Nat → Nat)
    (outcome : Nat → AttemptOutcome) (descr : String) (errs : Nat → ExecError)
    (max_retries : Nat)
    (hout : ∀ i, 1 ≤ i → i ≤ max_retries → outcome i = .raises (errs i))
    (hcl : ∀ i, 1 ≤ i → i ≤ max_retries → classify (errs i) = true) :
    ∀ fuel, ∀ attempt, ∀ last, 1 ≤ fuel → 1 ≤ attempt → attempt + fuel = max_retries + 1 →
      (retry_go classify delay outcome descr max_retries fuel attempt last).2 =
        .error (some (errs max_retries)) ∧
      countCheckpoints (retry_go classify delay outcome descr max_retries fuel attempt last).1 = fuel ∧
      countRollbacks (retry_go classify delay outcome descr max_retries fuel attempt last).1 = fuel ∧
      countCommits (retry_go classify delay outcome descr max_retries fuel attempt last).1 = 0 ∧
      countSleeps (retry_go classify delay outcome descr max_retries fuel attempt last).1 = fuel - 1 := by
  intro fuel
  induction fuel with
  | zero => intro attempt last h1 _ _; omega
  | succ f ih =>
    intro attempt last _ hatt hsum
    have haux : attempt ≤ max_retries := by omega
    have hout' := hout attempt hatt haux
    have hcl' := hcl attempt hatt haux
    rcases Nat.eq_zero_or_pos f with hf | hf
    · subst hf
      have hmax : attempt = max_retries := by omega
      have hpair : retry_go classify delay outcome descr max_retries 1 attempt last =
          ([ExecEvent.checkpoint attempt, ExecEvent.rollback "final failure cleanup"],
            .error (some (errs attempt))) := by
        simp [retry_go, hout', hcl', (show ¬ attempt < max_retries by omega)]
      rw [hpair, hmax]
      simp [countCheckpoints, countRollbacks, countCommits, countSleeps]
    · have hlt : attempt < max_retries := by omega
      obtain ⟨ih1, ih2, ih3, ih4, ih5⟩ :=
        ih (attempt + 1) (some (errs attempt)) hf (by omega) (by omega)
      have hpair : retry_go classify delay outcome descr max_retries (f + 1) attempt last =
          (ExecEvent.checkpoint attempt :: ExecEvent.rollback "retryable error cleanup" ::
            ExecEvent.sleep (delay (errs attempt) attempt) ::
            (retry_go classify delay outcome descr max_retries f (attempt + 1)
              (some (errs attempt))).1,
           (retry_go classify delay outcome descr max_retries f (attempt + 1)
              (some (errs attempt))).2) := by
        simp [retry_go, hout', hcl', hlt]
      rw [hpair]
      refine ⟨ih1, ?_, ?_, ?_, ?_⟩ <;>
        simp only [countCheckpoints, countRollbacks, countCommits, countSleeps] <;>
        omega

/-- Claim C2: for every unit of work with attempt budget `maxAttempts ≥ 1`,
if all attempts reject with retryable failures, the Executor raises exactly
one error — the last attempt's — and the trace holds exactly `maxAttempts`
checkpoints (one per attempt, never skipped), exactly `maxAttempts`
rollbacks, and no commit, so every checkpoint is either committed or rolled
back (here: all rolled back). -/
theorem spec_C2_retry_exhaustion (classify : ExecError → Bool)
    (delay : ExecError → Nat → Nat) (outcome : Nat → AttemptOutcome)
    (descr : String) (errs : Nat → ExecError) (max_retries : Nat)
    (hmax : 1 ≤ max_retries)
    (hout : ∀ i, 1 ≤ i → i ≤ max_retries → outcome i = .raises (errs i))
    (hcl : ∀ i, 1 ≤ i → i ≤ max_retries → classify (errs i) = true) :
    (run_claude_prompt_with_retry classify delay outcome descr max_retries).2 =
      .error (some (errs max_retries)) ∧
    countCheckpoints (run_claude_prompt_with_retry classify delay outcome descr max_retries).1 =
      max_retries ∧
    countRollbacks (run_claude_prompt_with_retry classify delay outcome descr max_retries).1 =
      max_retries ∧
    countCommits (run_claude_prompt_with_retry classify delay outcome descr max_retries).1 = 0 ∧
    countCheckpoints (run_claude_prompt_with_retry classify delay outcome descr max_retries).1 =
      countCommits (run_claude_prompt_with_retry classify delay outcome descr max_retries).1 +
        countRollbacks (run_claude_prompt_with_retry classify delay outcome descr max_retries).1 := by
  obtain ⟨h1, h2, h3, h4, _⟩ :=
    retry_raise_aux classify delay outcome descr errs max_retries hout hcl
      max_retries 1 none hmax (le_refl 1) (by omega)
  exact ⟨h1, h2, h3, h4, by rw [run_claude_prompt_with_retry] at *; omega⟩

/-- Witness for C2: three attempts all rejecting with a retryable network
error yield one raised error, 3 checkpoints, 3 rollbacks and no commit. -/
theorem spec_C2_witness :
    (run_claude_prompt_with_retry (fun _ => true) (fun _ _ => 100)
        (fun _ => .raises { message := "network timeout" }) "recon" 3).2 =
      .error (some { message := "network timeout" }) ∧
    countCheckpoints (run_claude_prompt_with_retry (fun _ => true) (fun _ _ => 100)
        (fun _ => .raises { message := "network timeout" }) "recon" 3).1 = 3 ∧
    countRollbacks (run_claude_prompt_with_retry (fun _ => true) (fun _ _ => 100)
        (fun _ => .raises { message := "network timeout" }) "recon" 3).1 = 3 ∧
    countCommits (run_claude_prompt_with_retry (fun _ => true) (fun _ _ => 100)
        (fun _ => .raises { message := "network timeout" }) "recon" 3).1 = 0 := by
  obtain ⟨h1, h2, h3, h4, _⟩ :=
    spec_C2_retry_exhaustion (fun _ => true) (fun _ _ => 100)
      (fun _ => .raises { message := "network timeout" }) "recon"
      (fun _ => { message := "network timeout" }) 3 (by omega)
      (fun _ _ _ => rfl) (fun _ _ _ => rfl)
  exact ⟨h1, h2, h3, h4⟩

/-! ## Claim C5 — non-retryable errors abort immediately -/

/-- Claim C5: if the runner rejects on attempt 1 with a plain error whose
lower-cased message matches a `NON_RETRYABLE_PATTERNS` entry (e.g.
"invalid api key"), the Executor — with the spec-modelled classifier —
rolls the workspace back exactly once and re-raises that error
immediately: the whole trace is one checkpoint and one rollback, no
further attempt happens regardless of the remaining budget. -/
theorem spec_C5_nonretryable (delay : ExecError → Nat → Nat)
    (outcome : Nat → AttemptOutcome) (descr : String) (max_retries : Nat)
    (e : ExecError) (hmax : 1 ≤ max_retries)
    (hout : outcome 1 = .raises e)
    (hplain : e.pentestRetryable = none)
    (hpat : ∃ p ∈ NON_RETRYABLE_PATTERNS, containsSub (strLower e.message) p = true) :
    run_claude_prompt_with_retry spec_is_retryable delay outcome descr max_retries =
      ([.checkpoint 1, .rollback "non-retryable error cleanup"], .error (some e)) ∧
    countCheckpoints (run_claude_prompt_with_retry spec_is_retryable delay outcome descr
      max_retries).1 = 1 ∧
    countRollbacks (run_claude_prompt_with_retry spec_is_retryable delay outcome descr
      max_retries).1 = 1 ∧
    countCommits (run_claude_prompt_with_retry spec_is_retryable delay outcome descr
      max_retries).1 = 0 ∧
    countSleeps (run_claude_prompt_with_retry spec_is_retryable delay outcome descr
      max_retries).1 = 0 := by
  have hclass : spec_is_retryable e = false := by
    rw [spec_is_retryable, hplain]
    simp only
    rw [if_pos (List.any_eq_true.mpr (by simpa using hpat))]
  obtain ⟨k, hk⟩ : ∃ k, max_retries = k + 1 := ⟨max_retries - 1, by omega⟩
  subst hk
  have hrun : run_claude_prompt_with_retry spec_is_retryable delay outcome descr (k + 1) =
      ([.checkpoint 1, .rollback "non-retryable error cleanup"], .error (some e)) := by
    rw [run_claude_prompt_with_retry]
    simp [retry_go, hout, hclass]
  refine ⟨hrun, ?_, ?_, ?_, ?_⟩ <;> (rw [hrun]; try rfl)

/-- Witness for C5: a concrete "Invalid API key provided" rejection on
attempt 1 with budget 3 aborts after one checkpoint and one rollback. -/
theorem spec_C5_witness :
    run_claude_prompt_with_retry spec_is_retryable (fun _ _ => 100)
        (fun _ => .raises { message := "Invalid API key provided" }) "recon" 3 =
      ([.checkpoint 1, .rollback "non-retryable error cleanup"],
        .error (some { message := "Invalid API key provided" })) :=
  (spec_C5_nonretryable (fun _ _ => 100)
    (fun _ => .raises { message := "Invalid API key provided" }) "recon" 3
    { message := "Invalid API key provided" } (by omega) rfl rfl
    ⟨"invalid api key", by decide, by decide⟩).1

/-! ## Claim C6 — validation failures retry with no backoff (corrected) -/

/-- Counterexample to C6 as stated: with the spec-modelled classifier, a
concrete positive backoff function, and budget 3, an attempt that succeeds
but fails output validation is followed by a rollback and an immediate
retry — the trace holds no sleep at all — whereas a retryable runner
exception at the same attempt number is followed by a rollback and a
backoff sleep. The claim that validation failures wait the same backoff
delay as runner exceptions is therefore false. -/
theorem spec_C6_counterexample :
    countSleeps (run_claude_prompt_with_retry spec_is_retryable c6_delay
      c6_outcome_validation "injection-vuln" 3).1 = 0 ∧
    countSleeps (run_claude_prompt_with_retry spec_is_retryable c6_delay
      c6_outcome_exception "injection-vuln" 3).1 = 1 ∧
    (run_claude_prompt_with_retry spec_is_retryable c6_delay
      c6_outcome_validation "injection-vuln" 3).1 =
      [.checkpoint 1, .rollback "validation failure", .checkpoint 2, .commit] ∧
    (run_claude_prompt_with_retry spec_is_retryable c6_delay
      c6_outcome_exception "injection-vuln" 3).1 =
      [.checkpoint 1, .rollback "retryable error cleanup", .sleep 7000,
        .checkpoint 2, .commit] := by
  refine ⟨rfl, rfl, rfl, rfl⟩

theorem retry_validation_aux (classify : ExecError → Bool)
    (delay : ExecError → Nat → Nat) (outcome : Nat → AttemptOutcome)
    (descr : String) (max_retries : Nat)
    (hout : ∀ i, 1 ≤ i → i ≤ max_retries → outcome i = .success false false)
    (hcl : classify (validationExhaustedError descr max_retries) = false) :
    ∀ fuel, ∀ attempt, ∀ last, 1 ≤ fuel → 1 ≤ attempt → attempt + fuel = max_retries + 1 →
      (retry_go classify delay outcome descr max_retries fuel attempt last).2 =
        .error (some (validationExhaustedError descr max_retries)) ∧
      countCheckpoints (retry_go classify delay outcome descr max_retries fuel attempt last).1 = fuel ∧
      countRollbacks (retry_go classify delay outcome descr max_retries fuel attempt last).1 = fuel ∧
      countRollbacksWith "validation failure"
        (retry_go classify delay outcome descr max_retries fuel attempt last).1 = fuel - 1 ∧
      countRollbacksWith "non-retryable error cleanup"
        (retry_go classify delay outcome descr max_retries fuel attempt last).1 = 1 ∧
      countCommits (retry_go classify delay outcome descr max_retries fuel attempt last).1 = 0 ∧
      countSleeps (retry_go classify delay outcome descr max_retries fuel attempt last).1 = 0 := by
  intro fuel
  induction fuel with
  | zero => intro attempt last h1 _ _; omega
  | succ f ih =>
    intro attempt last _ hatt hsum
    have haux : attempt ≤ max_retries := by omega
    have hout' := hout attempt hatt haux
    rcases Nat.eq_zero_or_pos f with hf | hf
    · subst hf
      have hmax : attempt = max_retries := by omega
      have hpair : retry_go classify delay outcome descr max_retries 1 attempt last =
          ([ExecEvent.checkpoint attempt, ExecEvent.rollback "non-retryable error cleanup"],
            .error (some (validationExhaustedError descr max_retries))) := by
        simp [retry_go, hout', hcl, (show ¬ attempt < max_retries by omega)]
      rw [hpair]
      simp [countCheckpoints, countRollbacks, countRollbacksWith, countCommits, countSleeps]
    · have hlt : attempt < max_retries := by omega
      obtain ⟨ih1, ih2, ih3, ih4, ih5, ih6, ih7⟩ :=
        ih (attempt + 1) (some (validationFailureError false)) hf (by omega) (by omega)
      have hpair : retry_go classify delay outcome descr max_retries (f + 1) attempt last =
          (ExecEvent.checkpoint attempt :: ExecEvent.rollback "validation failure" ::
            (retry_go classify delay outcome descr max_retries f (attempt + 1)
              (some (validationFailureError false))).1,
           (retry_go classify delay outcome descr max_retries f (attempt + 1)
              (some (validationFailureError false))).2) := by
        simp [retry_go, hout', hlt]
      rw [hpair]
      refine ⟨ih1, ?_, ?_, ?_, ?_, ?_, ?_⟩ <;>
        simp only [countCheckpoints, countRollbacks, countRollbacksWith, countCommits,
          countSleeps] <;>
        (first | omega | (simp; omega))

/-- Claim C6 (amended): when a successful runner result fails output
validation and attempts remain, the Executor treats it as a retryable
failure with the distinct signature "output validation failed" (the
rollback carries the dedicated "validation failure" reason), rolls the
workspace back before the next attempt, and retries immediately with no
backoff delay — unlike a retryable runner exception, validation failures
observe no backoff sleep; if attempts are exhausted it raises a terminal
validation-exhausted `PentestError` after a final rollback, leaving every
checkpoint rolled back. -/
theorem spec_C6_amended (classify : ExecError → Bool)
    (delay : ExecError → Nat → Nat) (outcome : Nat → AttemptOutcome)
    (descr : String) (max_retries : Nat) (hmax : 1 ≤ max_retries)
    (hout : ∀ i, 1 ≤ i → i ≤ max_retries → outcome i = .success false false)
    (hcl : classify (validationExhaustedError descr max_retries) = false) :
    (run_claude_prompt_with_retry classify delay outcome descr max_retries).2 =
      .error (some (validationExhaustedError descr max_retries)) ∧
    countSleeps (run_claude_prompt_with_retry classify delay outcome descr max_retries).1 = 0 ∧
    countCheckpoints (run_claude_prompt_with_retry classify delay outcome descr max_retries).1 =
      max_retries ∧
    countRollbacks (run_claude_prompt_with_retry classify delay outcome descr max_retries).1 =
      max_retries ∧
    countRollbacksWith "validation failure"
      (run_claude_prompt_with_retry classify delay outcome descr max_retries).1 =
        max_retries - 1 ∧
    countRollbacksWith "non-retryable error cleanup"
      (run_claude_prompt_with_retry classify delay outcome descr max_retries).1 = 1 ∧
    countCommits (run_claude_prompt_with_retry classify delay outcome descr max_retries).1 = 0 := by
  obtain ⟨h1, h2, h3, h4, h5, h6, h7⟩ :=
    retry_validation_aux classify delay outcome descr max_retries hout hcl
      max_retries 1 none hmax (le_refl 1) (by omega)
  exact ⟨h1, h7, h2, h3, h4, h5, h6⟩

/-- Witness for C6 (amended): with the spec-modelled classifier, three
attempts that all fail validation end in the terminal validation-exhausted
error with no backoff sleep. -/
theorem spec_C6_witness :
    (run_claude_prompt_with_retry spec_is_retryable c6_delay
        (fun _ => .success false false) "recon" 3).2 =
      .error (some (validationExhaustedError "recon" 3)) ∧
    countSleeps (run_claude_prompt_with_retry spec_is_retryable c6_delay
        (fun _ => .success false false) "recon" 3).1 = 0 := by
  obtain ⟨h1, h2, _⟩ :=
    spec_C6_amended spec_is_retryable c6_delay (fun _ => .success false false)
      "recon" 3 (by omega) (fun _ _ _ => rfl) rfl
  exact ⟨h1, h2⟩

/-! ## Workflow branch shapes and phase bookkeeping -/

theorem workflow_eq_fail1 (env : WorkflowEnv) (t0 t1 : Nat) (s1 : PipelineState) (e : String)
    (h1 : execute_pre_recon_phase env.preRecon (initState t0) = (s1, some e)) :
    pentestPipelineWorkflow env t0 t1 = finishFailed s1 e t1 [initState t0] [] [] := by
  simp only [pentestPipelineWorkflow, h1]

theorem workflow_eq_fail2 (env : WorkflowEnv) (t0 t1 : Nat) (s1 s2 : PipelineState) (e : String)
    (h1 : execute_pre_recon_phase env.preRecon (initState t0) = (s1, none))
    (h2 : execute_recon_phase env.recon s1 = (s2, some e)) :
    pentestPipelineWorkflow env t0 t1 = finishFailed s2 e t1 [initState t0, s1] [] [] := by
  simp only [pentestPipelineWorkflow, h1, h2]

theorem workflow_eq_fail4 (env : WorkflowEnv) (t0 t1 : Nat) (s1 s2 s3 s4 : PipelineState)
    (results : List (Except String VulnExploitPipelineResult)) (failedP : List String)
    (e : String)
    (h1 : execute_pre_recon_phase env.preRecon (initState t0) = (s1, none))
    (h2 : execute_recon_phase env.recon s1 = (s2, none))
    (h3 : execute_vulnerability_exploitation_phase env s2 = (s3, results, failedP))
    (h4 : execute_reporting_phase env s3 = (s4, some e)) :
    pentestPipelineWorkflow env t0 t1 =
      finishFailed s4 e t1 [initState t0, s1, s2, s3] results failedP := by
  simp only [pentestPipelineWorkflow, h1, h2, h3, h4]

theorem workflow_eq_ok (env : WorkflowEnv) (t0 t1 : Nat) (s1 s2 s3 s4 : PipelineState)
    (results : List (Except String VulnExploitPipelineResult)) (failedP : List String)
    (h1 : execute_pre_recon_phase env.preRecon (initState t0) = (s1, none))
    (h2 : execute_recon_phase env.recon s1 = (s2, none))
    (h3 : execute_vulnerability_exploitation_phase env s2 = (s3, results, failedP))
    (h4 : execute_reporting_phase env s3 = (s4, none)) :
    pentestPipelineWorkflow env t0 t1 =
      finishCompleted s4 t1 [initState t0, s1, s2, s3, s4] results failedP := by
  simp only [pentestPipelineWorkflow, h1, h2, h3, h4]

theorem pre_recon_props (r : Except String AgentMetrics) (s : PipelineState) :
    ((execute_pre_recon_phase r s).1).status = s.status ∧
    ((execute_pre_recon_phase r s).1).summary = s.summary ∧
    ∃ t, ((execute_pre_recon_phase r s).1).completedAgents = s.completedAgents ++ t := by
  cases r with
  | error e => exact ⟨rfl, rfl, [], by simp [execute_pre_recon_phase]⟩
  | ok m => exact ⟨rfl, rfl, ["pre-recon"], by simp [execute_pre_recon_phase]⟩

theorem recon_props (r : Except String AgentMetrics) (s : PipelineState) :
    ((execute_recon_phase r s).1).status = s.status ∧
    ((execute_recon_phase r s).1).summary = s.summary ∧
    ∃ t, ((execute_recon_phase r s).1).completedAgents = s.completedAgents ++ t := by
  cases r with
  | error e => exact ⟨rfl, rfl, [], by simp [execute_recon_phase]⟩
  | ok m => exact ⟨rfl, rfl, ["recon"], by simp [execute_recon_phase]⟩

theorem foldl_applySubRun_props (runs : List SubPipelineRun) (s : PipelineState) :
    (runs.foldl applySubRun s).status = s.status ∧
    (runs.foldl applySubRun s).summary = s.summary ∧
    ∃ t, (runs.foldl applySubRun s).completedAgents = s.completedAgents ++ t := by
  induction runs generalizing s with
  | nil => exact ⟨rfl, rfl, [], by simp⟩
  | cons r rs ih =>
    obtain ⟨h1, h2, t, ht⟩ := ih (applySubRun s r)
    refine ⟨h1, h2, r.completed ++ t, ?_⟩
    rw [List.foldl_cons, ht]
    simp [applySubRun]

theorem vuln_phase_props (env : WorkflowEnv) (s : PipelineState) :
    ((execute_vulnerability_exploitation_phase env s).1).status = s.status ∧
    ((execute_vulnerability_exploitation_phase env s).1).summary = s.summary ∧
    ∃ t, ((execute_vulnerability_exploitation_phase env s).1).completedAgents =
      s.completedAgents ++ t := by
  obtain ⟨h1, h2, t, ht⟩ :=
    foldl_applySubRun_props
      (List.zipWith run_vuln_exploit_pipeline vulnTypes (subEnvs env))
      { s with currentPhase := some "vulnerability-exploitation",
               currentAgent := some "pipelines" }
  exact ⟨h1, h2, t, ht⟩

theorem reporting_props (env : WorkflowEnv) (s : PipelineState) :
    ((execute_reporting_phase env s).1).status = s.status ∧
    ((execute_reporting_phase env s).1).summary = s.summary ∧
    ∃ t, ((execute_reporting_phase env s).1).completedAgents = s.completedAgents ++ t := by
  cases ha : env.assembleReport with
  | error e => exact ⟨by simp [execute_reporting_phase, ha], by simp [execute_reporting_phase, ha],
      [], by simp [execute_reporting_phase, ha]⟩
  | ok u =>
    cases hr : env.reportAgent with
    | error e => exact ⟨by simp [execute_reporting_phase, ha, hr],
        by simp [execute_reporting_phase, ha, hr], [], by simp [execute_reporting_phase, ha, hr]⟩
    | ok m =>
      cases hi : env.injectReportMetadata with
      | error e => exact ⟨by simp [execute_reporting_phase, ha, hr, hi],
          by simp [execute_reporting_phase, ha, hr, hi], ["report"],
          by simp [execute_reporting_phase, ha, hr, hi]⟩
      | ok u2 => exact ⟨by simp [execute_reporting_phase, ha, hr, hi],
          by simp [execute_reporting_phase, ha, hr, hi], ["report"],
          by simp [execute_reporting_phase, ha, hr, hi]⟩

theorem pre_recon_props' (r : Except String AgentMetrics) (s s1 : PipelineState)
    (e1 : Option String) (h : execute_pre_recon_phase r s = (s1, e1)) :
    s1.status = s.status ∧ s1.summary = s.summary ∧
    ∃ t, s1.completedAgents = s.completedAgents ++ t := by
  have hp := pre_recon_props r s
  rw [h] at hp
  exact hp

theorem recon_props' (r : Except String AgentMetrics) (s s1 : PipelineState)
    (e1 : Option String) (h : execute_recon_phase r s = (s1, e1)) :
    s1.status = s.status ∧ s1.summary = s.summary ∧
    ∃ t, s1.completedAgents = s.completedAgents ++ t := by
  have hp := recon_props r s
  rw [h] at hp
  exact hp

theorem vuln_phase_props' (env : WorkflowEnv) (s s1 : PipelineState)
    (results : List (Except String VulnExploitPipelineResult)) (failedP : List String)
    (h : execute_vulnerability_exploitation_phase env s = (s1, results, failedP)) :
    s1.status = s.status ∧ s1.summary = s.summary ∧
    ∃ t, s1.completedAgents = s.completedAgents ++ t := by
  have hp := vuln_phase_props env s
  rw [h] at hp
  exact hp

theorem reporting_props' (env : WorkflowEnv) (s s1 : PipelineState)
    (e1 : Option String) (h : execute_reporting_phase env s = (s1, e1)) :
    s1.status = s.status ∧ s1.summary = s.summary ∧
    ∃ t, s1.completedAgents = s.completedAgents ++ t := by
  have hp := reporting_props env s
  rw [h] at hp
  exact hp

/-! ## Claim C1 — summary is non-null iff status is terminal -/

/-- Claim C1: at every observable point of a run — at initialization, after
each completed phase, and at the terminal transition — the summary field is
non-null if and only if the status field is not `running`: the state is
created with status `running` and summary null, and summary is assigned
exactly at the transition to `completed` or `failed`. -/
theorem spec_C1_summary_iff_terminal (env : WorkflowEnv) (t0 t1 : Nat)
    (s : PipelineState)
    (hs : s ∈ (pentestPipelineWorkflow env t0 t1).observables) :
    s.summary ≠ none ↔ s.status ≠ Status.running := by
  rcases h1 : execute_pre_recon_phase env.preRecon (initState t0) with ⟨s1, e1⟩
  obtain ⟨hst1, hsum1, _⟩ := pre_recon_props' env.preRecon (initState t0) s1 e1 h1
  cases e1 with
  | some e =>
    rw [workflow_eq_fail1 env t0 t1 s1 e h1] at hs
    simp only [finishFailed, List.cons_append, List.nil_append, List.mem_cons,
      List.not_mem_nil, or_false] at hs
    rcases hs with rfl | rfl
    · simp [initState]
    · simp
  | none =>
    rcases h2 : execute_recon_phase env.recon s1 with ⟨s2, e2⟩
    obtain ⟨hst2, hsum2, _⟩ := recon_props' env.recon s1 s2 e2 h2
    cases e2 with
    | some e =>
      rw [workflow_eq_fail2 env t0 t1 s1 s2 e h1 h2] at hs
      simp only [finishFailed, List.cons_append, List.nil_append, List.mem_cons,
        List.not_mem_nil, or_false] at hs
      rcases hs with rfl | rfl | rfl
      · simp [initState]
      · rw [hsum1, hst1]
        simp [initState]
      · simp
    | none =>
      rcases h3 : execute_vulnerability_exploitation_phase env s2 with ⟨s3, results, failedP⟩
      obtain ⟨hst3, hsum3, _⟩ := vuln_phase_props' env s2 s3 results failedP h3
      rcases h4 : execute_reporting_phase env s3 with ⟨s4, e4⟩
      obtain ⟨hst4, hsum4, _⟩ := reporting_props' env s3 s4 e4 h4
      cases e4 with
      | some e =>
        rw [workflow_eq_fail4 env t0 t1 s1 s2 s3 s4 results failedP e h1 h2 h3 h4] at hs
        simp only [finishFailed, List.cons_append, List.nil_append, List.mem_cons,
          List.not_mem_nil, or_false] at hs
        rcases hs with rfl | rfl | rfl | rfl | rfl
        · simp [initState]
        · rw [hsum1, hst1]
          simp [initState]
        · rw [hsum2, hsum1, hst2, hst1]
          simp [initState]
        · rw [hsum3, hsum2, hsum1, hst3, hst2, hst1]
          simp [initState]
        · simp
      | none =>
        rw [workflow_eq_ok env t0 t1 s1 s2 s3 s4 results failedP h1 h2 h3 h4] at hs
        simp only [finishCompleted, List.cons_append, List.nil_append, List.mem_cons,
          List.not_mem_nil, or_false] at hs
        rcases hs with rfl | rfl | rfl | rfl | rfl | rfl
        · simp [initState]
        · rw [hsum1, hst1]
          simp [initState]
        · rw [hsum2, hsum1, hst2, hst1]
          simp [initState]
        · rw [hsum3, hsum2, hsum1, hst3, hst2, hst1]
          simp [initState]
        · rw [hsum4, hsum3, hsum2, hsum1, hst4, hst3, hst2, hst1]
          simp [initState]
        · simp

/-- Witness for C1 at a concrete run (all activities succeed) and its
initialization observable. -/
theorem spec_C1_witness :
    ((initState 0).summary ≠ none ↔ (initState 0).status ≠ Status.running) :=
  spec_C1_summary_iff_terminal envAllOk 0 100 (initState 0) (by decide)

/-! ## Claim C3 — uncaught phase errors fail the run without losing progress -/

/-- Claim C3: on any uncaught error from an ordered phase, the Orchestrator
sets status to `failed`, records the unit in progress as the failure point
(`failedAgent` is the `currentAgent` at the moment of failure) with a
populated error string, computes the summary over the final state, emits
the terminal-state `logWorkflowComplete` notification before propagating,
re-raises the same error so the caller observes the failure, and keeps
every previously completed unit listed in `completedAgents` (each
observable's completed list stays a prefix of the final one — partial
progress is never discarded). -/
theorem spec_C3_ordered_failure (env : WorkflowEnv) (t0 t1 : Nat) (e : String)
    (h : (pentestPipelineWorkflow env t0 t1).outcome = .error e) :
    (pentestPipelineWorkflow env t0 t1).finalState.status = Status.failed ∧
    (pentestPipelineWorkflow env t0 t1).finalState.error = some e ∧
    (pentestPipelineWorkflow env t0 t1).finalState.failedAgent =
      (pentestPipelineWorkflow env t0 t1).preTerminal.currentAgent ∧
    (pentestPipelineWorkflow env t0 t1).finalState.summary =
      some (computeSummary t1 (pentestPipelineWorkflow env t0 t1).finalState) ∧
    (pentestPipelineWorkflow env t0 t1).completionLog =
      some (build_workflow_summary (pentestPipelineWorkflow env t0 t1).finalState
        Status.failed (some e)) ∧
    (pentestPipelineWorkflow env t0 t1).finalState.completedAgents =
      (pentestPipelineWorkflow env t0 t1).preTerminal.completedAgents ∧
    ∀ o ∈ (pentestPipelineWorkflow env t0 t1).observables,
      ∃ rest, (pentestPipelineWorkflow env t0 t1).finalState.completedAgents =
        o.completedAgents ++ rest := by
  rcases h1 : execute_pre_recon_phase env.preRecon (initState t0) with ⟨s1, e1⟩
  obtain ⟨hst1, hsum1, t1a, hca1⟩ := pre_recon_props' env.preRecon (initState t0) s1 e1 h1
  cases e1 with
  | some e' =>
    rw [workflow_eq_fail1 env t0 t1 s1 e' h1] at h ⊢
    have he : e' = e := by simpa [finishFailed] using h
    subst he
    refine ⟨rfl, rfl, rfl, rfl, rfl, rfl, ?_⟩
    intro o ho
    simp only [finishFailed, List.cons_append, List.nil_append, List.mem_cons,
      List.not_mem_nil, or_false] at ho
    rcases ho with rfl | rfl
    · refine ⟨t1a, ?_⟩
      simp only [finishFailed]
      simpa [initState] using hca1
    · exact ⟨[], by simp [finishFailed]⟩
  | none =>
    rcases h2 : execute_recon_phase env.recon s1 with ⟨s2, e2⟩
    obtain ⟨hst2, hsum2, t2a, hca2⟩ := recon_props' env.recon s1 s2 e2 h2
    cases e2 with
    | some e' =>
      rw [workflow_eq_fail2 env t0 t1 s1 s2 e' h1 h2] at h ⊢
      have he : e' = e := by simpa [finishFailed] using h
      subst he
      refine ⟨rfl, rfl, rfl, rfl, rfl, rfl, ?_⟩
      intro o ho
      simp only [finishFailed, List.cons_append, List.nil_append, List.mem_cons,
        List.not_mem_nil, or_false] at ho
      rcases ho with rfl | rfl | rfl
      · refine ⟨t1a ++ t2a, ?_⟩
        simp only [finishFailed]
        rw [hca2, hca1]
        simp [initState, List.append_assoc]
      · refine ⟨t2a, ?_⟩
        simp only [finishFailed]
        exact hca2
      · exact ⟨[], by simp [finishFailed]⟩
    | none =>
      rcases h3 : execute_vulnerability_exploitation_phase env s2 with ⟨s3, results, failedP⟩
      obtain ⟨hst3, hsum3, t3a, hca3⟩ := vuln_phase_props' env s2 s3 results failedP h3
      rcases h4 : execute_reporting_phase env s3 with ⟨s4, e4⟩
      obtain ⟨hst4, hsum4, t4a, hca4⟩ := reporting_props' env s3 s4 e4 h4
      cases e4 with
      | some e' =>
        rw [workflow_eq_fail4 env t0 t1 s1 s2 s3 s4 results failedP e' h1 h2 h3 h4] at h ⊢
        have he : e' = e := by simpa [finishFailed] using h
        subst he
        refine ⟨rfl, rfl, rfl, rfl, rfl, rfl, ?_⟩
        intro o ho
        simp only [finishFailed, List.cons_append, List.nil_append, List.mem_cons,
          List.not_mem_nil, or_false] at ho
        rcases ho with rfl | rfl | rfl | rfl | rfl
        · refine ⟨t1a ++ (t2a ++ (t3a ++ t4a)), ?_⟩
          simp only [finishFailed]
          rw [hca4, hca3, hca2, hca1]
          simp [initState, List.append_assoc]
        · refine ⟨t2a ++ (t3a ++ t4a), ?_⟩
          simp only [finishFailed]
          rw [hca4, hca3, hca2]
          simp [List.append_assoc]
        · refine ⟨t3a ++ t4a, ?_⟩
          simp only [finishFailed]
          rw [hca4, hca3]
          simp [List.append_assoc]
        · refine ⟨t4a, ?_⟩
          simp only [finishFailed]
          exact hca4
        · exact ⟨[], by simp [finishFailed]⟩
      | none =>
        rw [workflow_eq_ok env t0 t1 s1 s2 s3 s4 results failedP h1 h2 h3 h4] at h
        simp [finishCompleted] at h

/-- Witness for C3: in the concrete run where the recon agent fails with
"network timeout", the final state is failed, the error is recorded, and
the failed agent is the recon unit that was in progress. -/
theorem spec_C3_witness :
    (pentestPipelineWorkflow envReconFails 0 100).outcome = .error "network timeout" ∧
    (pentestPipelineWorkflow envReconFails 0 100).finalState.status = Status.failed ∧
    (pentestPipelineWorkflow envReconFails 0 100).finalState.error = some "network timeout" ∧
    (pentestPipelineWorkflow envReconFails 0 100).finalState.failedAgent = some "recon" ∧
    (pentestPipelineWorkflow envReconFails 0 100).finalState.completedAgents = ["pre-recon"] :=
  ⟨by decide,
   (spec_C3_ordered_failure envReconFails 0 100 "network timeout" (by decide)).1,
   (spec_C3_ordered_failure envReconFails 0 100 "network timeout" (by decide)).2.1,
   by decide, by decide⟩

/-! ## Claim C4 — parallel sub-pipeline failure isolation -/

theorem sub_outcome_ok (t : String) (e : SubPipelineEnv) (h : subSucceeds e = true) :
    ∃ res, (run_vuln_exploit_pipeline t e).outcome = .ok res := by
  cases hv : e.vulnResult with
  | error m => simp [subSucceeds, hv] at h
  | ok vm =>
    cases hq : e.queueResult with
    | error m => simp [subSucceeds, hv, hq] at h
    | ok d =>
      by_cases hd : d.shouldExploit
      · cases hx : e.exploitResult with
        | error m => simp [subSucceeds, hv, hq, hd, hx, isOkE] at h
        | ok em =>
          refine ⟨⟨t, vm, some em, ⟨d.shouldExploit, d.vulnerabilityCount⟩, none⟩, ?_⟩
          simp [run_vuln_exploit_pipeline, hv, hq, hd, hx]
      · refine ⟨⟨t, vm, none, ⟨d.shouldExploit, d.vulnerabilityCount⟩, none⟩, ?_⟩
        simp [run_vuln_exploit_pipeline, hv, hq, hd]

theorem sub_outcome_err (t : String) (e : SubPipelineEnv) (h : subSucceeds e = false) :
    ∃ m, (run_vuln_exploit_pipeline t e).outcome = .error m := by
  cases hv : e.vulnResult with
  | error m => exact ⟨m, by simp [run_vuln_exploit_pipeline, hv]⟩
  | ok vm =>
    cases hq : e.queueResult with
    | error m => exact ⟨m, by simp [run_vuln_exploit_pipeline, hv, hq]⟩
    | ok d =>
      by_cases hd : d.shouldExploit
      · cases hx : e.exploitResult with
        | error m => exact ⟨m, by simp [run_vuln_exploit_pipeline, hv, hq, hd, hx]⟩
        | ok em => simp [subSucceeds, hv, hq, hd, hx, isOkE] at h
      · simp [subSucceeds, hv, hq, hd] at h

/-- Claim C4: for the five parallel vuln/exploit sub-pipelines, if exactly
one sub-pipeline fails with an unrecoverable error and every other
activity of the run succeeds, then the other four sub-pipelines still
settle with successful results, exactly one failure message is recorded in
`failedPipelines`, the run continues through the reporting phase, and the
run's terminal status is unaffected: the workflow returns normally with
status `completed` — a failed sub-pipeline's result is logged and
otherwise ignored, and no sibling is cancelled. -/
theorem spec_C4_isolation (env : WorkflowEnv) (t0 t1 : Nat) (i : Fin 5)
    (hpre : isOkE env.preRecon = true) (hrec : isOkE env.recon = true)
    (hasm : isOkE env.assembleReport = true) (hrep : isOkE env.reportAgent = true)
    (hinj : isOkE env.injectReportMetadata = true)
    (hfail : subSucceeds (subEnvAt env i) = false)
    (hok : ∀ j : Fin 5, j ≠ i → subSucceeds (subEnvAt env j) = true) :
    (pentestPipelineWorkflow env t0 t1).pipelineResults.length = 5 ∧
    ((pentestPipelineWorkflow env t0 t1).pipelineResults.filter
      (fun x => isOkE x)).length = 4 ∧
    (pentestPipelineWorkflow env t0 t1).failedPipelines.length = 1 ∧
    (pentestPipelineWorkflow env t0 t1).finalState.status = Status.completed ∧
    (pentestPipelineWorkflow env t0 t1).outcome =
      .ok (pentestPipelineWorkflow env t0 t1).finalState := by
  obtain ⟨m1, hm1⟩ : ∃ m, env.preRecon = .ok m := by
    cases hh : env.preRecon with
    | ok m => exact ⟨m, rfl⟩
    | error er => rw [hh] at hpre; simp [isOkE] at hpre
  obtain ⟨m2, hm2⟩ : ∃ m, env.recon = .ok m := by
    cases hh : env.recon with
    | ok m => exact ⟨m, rfl⟩
    | error er => rw [hh] at hrec; simp [isOkE] at hrec
  obtain ⟨u3, hm3⟩ : ∃ u, env.assembleReport = .ok u := by
    cases hh : env.assembleReport with
    | ok u => exact ⟨u, rfl⟩
    | error er => rw [hh] at hasm; simp [isOkE] at hasm
  obtain ⟨m4, hm4⟩ : ∃ m, env.reportAgent = .ok m := by
    cases hh : env.reportAgent with
    | ok m => exact ⟨m, rfl⟩
    | error er => rw [hh] at hrep; simp [isOkE] at hrep
  obtain ⟨u5, hm5⟩ : ∃ u, env.injectReportMetadata = .ok u := by
    cases hh : env.injectReportMetadata with
    | ok u => exact ⟨u, rfl⟩
    | error er => rw [hh] at hinj; simp [isOkE] at hinj
  rcases hpe1 : execute_pre_recon_phase env.preRecon (initState t0) with ⟨s1, e1⟩
  have he1 : e1 = none := by
    have hc := congrArg Prod.snd hpe1
    rw [hm1] at hc
    simpa [execute_pre_recon_phase] using hc.symm
  subst he1
  rcases hpe2 : execute_recon_phase env.recon s1 with ⟨s2, e2⟩
  have he2 : e2 = none := by
    have hc := congrArg Prod.snd hpe2
    rw [hm2] at hc
    simpa [execute_recon_phase] using hc.symm
  subst he2
  rcases hpe3 : execute_vulnerability_exploitation_phase env s2 with ⟨s3, results, failedP⟩
  rcases hpe4 : execute_reporting_phase env s3 with ⟨s4, e4⟩
  have he4 : e4 = none := by
    have hc := congrArg Prod.snd hpe4
    rw [execute_reporting_phase, hm3, hm4, hm5] at hc
    simpa using hc.symm
  subst he4
  rw [workflow_eq_ok env t0 t1 s1 s2 s3 s4 results failedP hpe1 hpe2 hpe3 hpe4]
  have htriple := congrArg (fun p => p.2) hpe3
  simp only [execute_vulnerability_exploitation_phase] at htriple
  have hresults : results =
      (List.zipWith run_vuln_exploit_pipeline vulnTypes (subEnvs env)).map
        (fun r => r.outcome) := by
    have := congrArg Prod.fst htriple
    exact this.symm
  have hfailedP : failedP = results.filterMap
      (fun r => match r with | .error m => some m | .ok _ => none) := by
    have := congrArg Prod.snd htriple
    rw [hresults]
    exact this.symm
  have hmain : results.length = 5 ∧
      (results.filter (fun x => isOkE x)).length = 4 ∧ failedP.length = 1 := by
    fin_cases i
    · obtain ⟨mf, hf⟩ := sub_outcome_err "injection" env.injection hfail
      obtain ⟨r2, h2⟩ := sub_outcome_ok "xss" env.xss (hok 1 (by decide))
      obtain ⟨r3, h3⟩ := sub_outcome_ok "auth" env.auth (hok 2 (by decide))
      obtain ⟨r4, h4⟩ := sub_outcome_ok "ssrf" env.ssrf (hok 3 (by decide))
      obtain ⟨r5, h5⟩ := sub_outcome_ok "authz" env.authz (hok 4 (by decide))
      rw [hfailedP, hresults]
      simp [vulnTypes, subEnvs, hf, h2, h3, h4, h5, isOkE]
    · obtain ⟨r1, h1⟩ := sub_outcome_ok "injection" env.injection (hok 0 (by decide))
      obtain ⟨mf, hf⟩ := sub_outcome_err "xss" env.xss hfail
      obtain ⟨r3, h3⟩ := sub_outcome_ok "auth" env.auth (hok 2 (by decide))
      obtain ⟨r4, h4⟩ := sub_outcome_ok "ssrf" env.ssrf (hok 3 (by decide))
      obtain ⟨r5, h5⟩ := sub_outcome_ok "authz" env.authz (hok 4 (by decide))
      rw [hfailedP, hresults]
      simp [vulnTypes, subEnvs, h1, hf, h3, h4, h5, isOkE]
    · obtain ⟨r1, h1⟩ := sub_outcome_ok "injection" env.injection (hok 0 (by decide))
      obtain ⟨r2, h2⟩ := sub_outcome_ok "xss" env.xss (hok 1 (by decide))
      obtain ⟨mf, hf⟩ := sub_outcome_err "auth" env.auth hfail
      obtain ⟨r4, h4⟩ := sub_outcome_ok "ssrf" env.ssrf (hok 3 (by decide))
      obtain ⟨r5, h5⟩ := sub_outcome_ok "authz" env.authz (hok 4 (by decide))
      rw [hfailedP, hresults]
      simp [vulnTypes, subEnvs, h1, h2, hf, h4, h5, isOkE]
    · obtain ⟨r1, h1⟩ := sub_outcome_ok "injection" env.injection (hok 0 (by decide))
      obtain ⟨r2, h2⟩ := sub_outcome_ok "xss" env.xss (hok 1 (by decide))
      obtain ⟨r3, h3⟩ := sub_outcome_ok "auth" env.auth (hok 2 (by decide))
      obtain ⟨mf, hf⟩ := sub_outcome_err "ssrf" env.ssrf hfail
      obtain ⟨r5, h5⟩ := sub_outcome_ok "authz" env.authz (hok 4 (by decide))
      rw [hfailedP, hresults]
      simp [vulnTypes, subEnvs, h1, h2, h3, hf, h5, isOkE]
    · obtain ⟨r1, h1⟩ := sub_outcome_ok "injection" env.injection (hok 0 (by decide))
      obtain ⟨r2, h2⟩ := sub_outcome_ok "xss" env.xss (hok 1 (by decide))
      obtain ⟨r3, h3⟩ := sub_outcome_ok "auth" env.auth (hok 2 (by decide))
      obtain ⟨r4, h4⟩ := sub_outcome_ok "ssrf" env.ssrf (hok 3 (by decide))
      obtain ⟨mf, hf⟩ := sub_outcome_err "authz" env.authz hfail
      rw [hfailedP, hresults]
      simp [vulnTypes, subEnvs, h1, h2, h3, h4, hf, isOkE]
  exact ⟨by simpa [finishCompleted] using hmain.1,
    by simpa [finishCompleted] using hmain.2.1,
    by simpa [finishCompleted] using hmain.2.2,
    by simp [finishCompleted],
    by simp [finishCompleted]⟩

/-- Witness for C4: the concrete run in which exactly the ssrf
sub-pipeline fails still completes with four successful sub-pipeline
results and one recorded failure. -/
theorem spec_C4_witness :
    (pentestPipelineWorkflow envSsrfFails 0 100).pipelineResults.length = 5 ∧
    ((pentestPipelineWorkflow envSsrfFails 0 100).pipelineResults.filter
      (fun x => isOkE x)).length = 4 ∧
    (pentestPipelineWorkflow envSsrfFails 0 100).failedPipelines.length = 1 ∧
    (pentestPipelineWorkflow envSsrfFails 0 100).finalState.status = Status.completed :=
  ⟨(spec_C4_isolation envSsrfFails 0 100 3 (by decide) (by decide) (by decide) (by decide)
      (by decide) (by decide) (by decide)).1,
   (spec_C4_isolation envSsrfFails 0 100 3 (by decide) (by decide) (by decide) (by decide)
      (by decide) (by decide) (by decide)).2.1,
   (spec_C4_isolation envSsrfFails 0 100 3 (by decide) (by decide) (by decide) (by decide)
      (by decide) (by decide) (by decide)).2.2.1,
   (spec_C4_isolation envSsrfFails 0 100 3 (by decide) (by decide) (by decide) (by decide)
      (by decide) (by decide) (by decide)).2.2.2.1⟩

end Shannon
